import Mathlib

/-!
# Verification of the matchmaking / stake-escrow / settlement core

Shallow embedding of the game-server logic of `src/server.js` (the same
logic appears in `src/unnamed/part_000` with the registry moved to Redis;
the settlement arithmetic, the lobby operations and the event handlers are
identical).  Pure data is modelled directly; the mutable server state
(`openChallenges`, `activeRooms`, the SQL `users` / `admin_wallet` tables)
is threaded explicitly through each event handler, and each handler returns
the emitted socket events alongside the new state.

Machine-number conventions:
* SQL `INTEGER` columns and JS stake/balance numbers are modelled as `Int`.
* `Math.floor(x / k)` and `Math.floor(x * 0.10)` on JS doubles are embedded
  as `Int.fdiv _ k` (floor division): for every value in the exactly
  representable range of doubles these agree with the float computation.
* `Math.round` on a JS double is Mathlib's `round` (both are
  round-half-up, `round x = ⌊x + 1/2⌋`).
-/

namespace Dama

/-- Room identifiers, `src/server.js:175`:
`isPrivate ? Math.random().toString(36).substr(2,5).toUpperCase() : "pub_" + Date.now()`.
A private id is a short random token, a public id is the string `"pub_"`
followed by the decimal millisecond timestamp.  The two string shapes are
disjoint and the decimal rendering of the timestamp is injective, so the
identifier space is embedded as a sum: `pub t` carries the `Date.now()`
value, `priv s` carries the random token. -/
inductive RoomId where
  | pub (timestamp : Nat)
  | priv (token : String)
deriving DecidableEq, Repr

/-- The `mode` field: selects the `real_balance` or `demo_balance` column. -/
inductive Mode where
  | real
  | demo
deriving DecidableEq, Repr

/-- Settlement reasons passed to `handleGameOver`
(`regular | timeout | draw | abandon`). -/
inductive Reason where
  | regular
  | timeout
  | draw
  | abandon
deriving DecidableEq, Repr

/-- A player descriptor inside an active room (`src/server.js:214-219`). -/
structure Player where
  id : Nat        -- socket id
  userId : Nat    -- users.id
  elo : Int
deriving DecidableEq, Repr

/-- An open challenge (`src/server.js:182`). -/
structure Challenge where
  roomId : RoomId
  hostId : Nat      -- creator socket id
  userId : Nat      -- creator account id
  hostName : String
  stake : Int
  mode : Mode
  isPrivate : Bool
  elo : Int
deriving DecidableEq, Repr

/-- An active room (`src/server.js:214-219`); `processed` is the settlement
flag set by `handleGameOver` (`room.processed = true`). -/
structure Room where
  p1 : Player
  p2 : Player
  stake : Int
  mode : Mode
  processed : Bool
deriving DecidableEq, Repr

/-- The durable store behind the SQL queries: the `users` table
(`real_balance`, `demo_balance`, `elo` columns keyed by `users.id`) and the
`admin_wallet` row.  `users` lists the existing account ids (`rowCount === 0`
checks).  The `transactions` audit log is not modelled: no claim reads it. -/
structure DB where
  users : List Nat
  realBal : Nat → Int
  demoBal : Nat → Int
  elo : Nat → Int
  adminWallet : Int

/-- Socket events emitted to clients (only the payload fields a claim
inspects are carried). -/
inductive Event where
  | errorMsg (message : String)
  | gameCreated (roomId : RoomId) ( isPrivate : Bool)
  | lobbyUpdate (challenges : List Challenge)
  | gameStart (roomId : RoomId)
  | challengeCancelled
  | matchDraw (refund : Int)
  | matchWin (winnerId : Nat) (payout : Int) (reason : Reason)
deriving DecidableEq, Repr

/-- Whole game-server state: `openChallenges` array, `activeRooms` map
(association list keyed by room id), and the database. -/
structure ServerState where
  openChallenges : List Challenge
  activeRooms : List (RoomId × Room)
  db : DB

/-- A connected socket: its id and its `socket.roomId` property (set on
create/join, absent before). -/
structure Socket where
  id : Nat
  roomId : Option RoomId
deriving DecidableEq, Repr

/-- Lookup `activeRooms[roomId]`. -/
def findRoom (rooms : List (RoomId × Room)) (rid : RoomId) : Option Room :=
  (rooms.find? (fun p => decide (p.1 = rid))).map (fun p => p.2)

/-- Deletion `delete activeRooms[roomId]`. -/
def removeRoom (rooms : List (RoomId × Room)) (rid : RoomId) :
    List (RoomId × Room) :=
  rooms.filter (fun p => !decide (p.1 = rid))

/-- Assignment `activeRooms[roomId] = room`. -/
def setRoom (rooms : List (RoomId × Room)) (rid : RoomId) (room : Room) :
    List (RoomId × Room) :=
  (rid, room) :: removeRoom rooms rid

/-- Read the selected balance column of an account (total function; use
`balOf` for the `rowCount === 0` check). -/
def modeBal (db : DB) (m : Mode) (uid : Nat) : Int :=
  match m with
  | Mode.real => db.realBal uid
  | Mode.demo => db.demoBal uid

/-- Query `SELECT ${balCol} as bal FROM users WHERE id = $1` — `none` models
`rowCount === 0`. -/
def balOf (db : DB) (m : Mode) (uid : Nat) : Option Int :=
  if uid ∈ db.users then some (modeBal db m uid) else none

/-- Update `UPDATE users SET ${balCol} = ${balCol} + amt WHERE id = uid`. -/
def creditMode (db : DB) (m : Mode) (uid : Nat) (amt : Int) : DB :=
  match m with
  | Mode.real =>
      { db with realBal := fun u => if u = uid then db.realBal u + amt else db.realBal u }
  | Mode.demo =>
      { db with demoBal := fun u => if u = uid then db.demoBal u + amt else db.demoBal u }

/-- Update `UPDATE users SET ${balCol} = ${balCol} + amt WHERE id IN (u1, u2)` —
SQL set semantics: each matching row is updated once, also when `u1 = u2`. -/
def creditBoth (db : DB) (m : Mode) (u1 u2 : Nat) (amt : Int) : DB :=
  match m with
  | Mode.real =>
      { db with realBal := fun u => if u = u1 ∨ u = u2 then db.realBal u + amt else db.realBal u }
  | Mode.demo =>
      { db with demoBal := fun u => if u = u1 ∨ u = u2 then db.demoBal u + amt else db.demoBal u }

/-- Update `UPDATE users SET elo = e WHERE id = uid`. -/
def setElo (db : DB) (uid : Nat) (e : Int) : DB :=
  { db with elo := fun u => if u = uid then e else db.elo u }

/-- Source `const platformFee = Math.floor(totalPot * 0.10)` (`src/server.js:260,269`). -/
def platformFeeOf (totalPot : Int) : Int :=
  Int.fdiv totalPot 10

/-- Source `const refund = Math.floor((totalPot - platformFee) / 2)` (`src/server.js:261`). -/
def drawRefundOf (totalPot platformFee : Int) : Int :=
  Int.fdiv (totalPot - platformFee) 2

/-- The public lobby listing: `openChallenges.filter(c => !c.isPrivate)`. -/
def publicList (cs : List Challenge) : List Challenge :=
  cs.filter (fun c => !c.isPrivate)

/-- Settlement `handleGameOver(roomId, winnerSocketId, reason)` (`src/server.js:249-285`).
`winnerSocketId : Option Nat` — `none` is JS `null`.  The settlement-ratings
function is a parameter `f` (the server instantiates it with `updateElo`,
defined below over the reals; nothing in the settlement control flow depends
on its values).  The source mutates `room.processed` and deletes the room at
the end of the same invocation, so one sequential step both marks and
removes. -/
def handleGameOver (f : Int → Int → Int × Int) (st : ServerState)
    (roomId : RoomId) (winnerSocketId : Option Nat) (reason : Reason) :
    ServerState × List Event :=
  match findRoom st.activeRooms roomId with
  | none => (st, [])
  | some room =>
    if room.processed then (st, [])
    else
      let totalPot := room.stake * 2
      if reason = Reason.draw then
        let platformFee := platformFeeOf totalPot
        let refund := drawRefundOf totalPot platformFee
        let db1 := creditBoth st.db room.mode room.p1.userId room.p2.userId refund
        let db2 := if room.mode = Mode.real then
            { db1 with adminWallet := db1.adminWallet + platformFee } else db1
        ({ st with db := db2, activeRooms := removeRoom st.activeRooms roomId },
         [Event.matchDraw refund])
      else
        let winner := if winnerSocketId = some room.p1.id then room.p1 else room.p2
        let loser := if winnerSocketId = some room.p1.id then room.p2 else room.p1
        let platformFee := platformFeeOf totalPot
        let winnerTake := totalPot - platformFee
        let newElos := f winner.elo loser.elo
        let db1 := creditMode st.db room.mode winner.userId winnerTake
        let db2 := setElo db1 winner.userId newElos.1
        let db3 := setElo db2 loser.userId newElos.2
        let db4 := if room.mode = Mode.real then
            { db3 with adminWallet := db3.adminWallet + platformFee } else db3
        ({ st with db := db4, activeRooms := removeRoom st.activeRooms roomId },
         [Event.matchWin winner.userId winnerTake reason])

/-- The `create_challenge` handler (`src/server.js:167-189`).  The room-id
generator inputs (`Date.now()` and the private random token) are passed in
as `now` / `randTok`.  Only the requester-visible events are recorded. -/
def createChallenge (st : ServerState) (sockId uid : Nat) (username : String)
    (stake : Int) (mode : Mode) ( isPrivate : Bool) (elo : Int)
    (now : Nat) (randTok : String) : ServerState × List Event :=
  match balOf st.db mode uid with
  | none => (st, [Event.errorMsg "Salio Halitoshi!"])
  | some bal =>
    if bal < stake then (st, [Event.errorMsg "Salio Halitoshi!"])
    else
      let roomId := if isPrivate then RoomId.priv randTok else RoomId.pub now
      let db1 := creditMode st.db mode uid (-stake)
      let challenge : Challenge :=
        { roomId := roomId, hostId := sockId, userId := uid, hostName := username,
          stake := stake, mode := mode, isPrivate := isPrivate, elo := elo }
      let cs := st.openChallenges ++ [challenge]
      ({ st with db := db1, openChallenges := cs },
       Event.gameCreated roomId isPrivate ::
         (if isPrivate then [] else [Event.lobbyUpdate (publicList cs)]))

/-- The `join_challenge` handler (`src/server.js:191-230`):
`findIndex` / self-join check / balance check / `splice` / debit / room
creation. -/
def joinChallenge (st : ServerState) (sockId uid : Nat) (username : String)
    (roomId : RoomId) (elo : Int) : ServerState × List Event :=
  match st.openChallenges.find? (fun c => decide (c.roomId = roomId)) with
  | none => (st, [Event.errorMsg "Mechi haipatikani."])
  | some challenge =>
    if challenge.userId = uid then
      (st, [Event.errorMsg "Huwezi kucheza dhidi yako!"])
    else
      match balOf st.db challenge.mode uid with
      | none => (st, [Event.errorMsg "Salio Halitoshi!"])
      | some bal =>
        if bal < challenge.stake then (st, [Event.errorMsg "Salio Halitoshi!"])
        else
          let remaining := st.openChallenges.eraseP (fun c => decide (c.roomId = roomId))
          let db1 := creditMode st.db challenge.mode uid (-challenge.stake)
          let room : Room :=
            { p1 := { id := challenge.hostId, userId := challenge.userId, elo := challenge.elo },
              p2 := { id := sockId, userId := uid, elo := elo },
              stake := challenge.stake, mode := challenge.mode, processed := false }
          ({ st with
              openChallenges := remaining
              db := db1
              activeRooms := setRoom st.activeRooms roomId room },
           [Event.lobbyUpdate (publicList remaining), Event.gameStart roomId])

/-- The `game_over` handler (`src/server.js:287`):
`handleGameOver(socket.roomId, data.winner === "me" ? socket.id : null, "regular")`. -/
inductive GOWinner where
  | me
  | opponent
deriving DecidableEq, Repr

/-- Handler `socket.on("game_over", ...)`; a socket without a room finds no entry
under its (undefined) key and the settlement is a no-op. -/
def onGameOver (f : Int → Int → Int × Int) (st : ServerState) (sock : Socket)
    (w : GOWinner) : ServerState × List Event :=
  match sock.roomId with
  | none => (st, [])
  | some rid =>
      handleGameOver f st rid
        (if w = GOWinner.me then some sock.id else none) Reason.regular

/-- Handler `socket.on("timeout_loss", ...)` (`src/server.js:288`): the opponent of
the reporting socket wins with reason `timeout`.  When the socket has no
room, the source's expression `activeRooms[socket.roomId].p1.id` throws a
`TypeError`; this is modelled as `none`. -/
def onTimeoutLoss (f : Int → Int → Int × Int) (st : ServerState)
    (sock : Socket) : Option (ServerState × List Event) :=
  match sock.roomId with
  | none => none
  | some rid =>
    match findRoom st.activeRooms rid with
    | none => none
    | some room =>
        some (handleGameOver f st rid
          (some (if room.p1.id = sock.id then room.p2.id else room.p1.id))
          Reason.timeout)

/-- Handler `socket.on("accept_draw", ...)` (`src/server.js:291`). -/
def onAcceptDraw (f : Int → Int → Int × Int) (st : ServerState)
    (sock : Socket) : ServerState × List Event :=
  match sock.roomId with
  | none => (st, [])
  | some rid => handleGameOver f st rid none Reason.draw

/-- The `disconnect` handler (`src/server.js:293-308`): refund the socket's
open challenge (first match by host socket id) if any, then — when the
socket's room is active and unprocessed — settle it as an `abandon` loss for
the disconnecting player. -/
def onDisconnect (f : Int → Int → Int × Int) (st : ServerState)
    (sock : Socket) : ServerState × List Event :=
  let step1 :=
    match st.openChallenges.find? (fun c => decide (c.hostId = sock.id)) with
    | none => (st, ([] : List Event))
    | some c =>
      let db1 := creditMode st.db c.mode c.userId c.stake
      let remaining := st.openChallenges.eraseP (fun x => decide (x.hostId = sock.id))
      ({ st with db := db1, openChallenges := remaining },
       [Event.lobbyUpdate (publicList remaining)])
  let st1 := step1.1
  match sock.roomId with
  | none => step1
  | some rid =>
    match findRoom st1.activeRooms rid with
    | none => step1
    | some room =>
      if room.processed then step1
      else
        let opponentId := if room.p1.id = sock.id then room.p2.id else room.p1.id
        let res := handleGameOver f st1 rid (some opponentId) Reason.abandon
        (res.1, step1.2 ++ res.2)

/-- Logistic expectation `expected(a, b) = 1 / (1 + 10^((b − a)/400))` used
inside `updateElo` (`src/server.js:156-157`). -/
noncomputable def expectedScore (a b : Int) : ℝ :=
  1 / (1 + (10 : ℝ) ^ (((b - a : Int) : ℝ) / 400))

/-- Source `updateElo(winnerElo, loserElo)` (`src/server.js:154-162`): K-factor 32,
round-half-up of the real-valued update. -/
noncomputable def updateElo (winnerElo loserElo : Int) : Int × Int :=
  let k : ℝ := 32
  let expectedWin := expectedScore winnerElo loserElo
  let expectedLoss := expectedScore loserElo winnerElo
  (round ((winnerElo : ℝ) + k * (1 - expectedWin)),
   round ((loserElo : ℝ) + k * (0 - expectedLoss)))

/-- The spec's rating update, written from its words (§4.3 Rating
Calculator): `newWinner = round(w + K × (1 − expected(w, l)))`,
`newLoser = round(l + K × (0 − expected(l, w)))`, `K = 32`,
`expected(a,b) = 1 / (1 + 10^((b − a)/400))`. -/
noncomputable def ratingCalculatorSpec (w l : Int) : Int × Int :=
  (round ((w : ℝ) + 32 * (1 - expectedScore w l)),
   round ((l : ℝ) + 32 * (0 - expectedScore l w)))

/-- Returns `true` iff the room exists and is not yet settled. -/
def roomActiveB (st : ServerState) (rid : RoomId) : Bool :=
  match findRoom st.activeRooms rid with
  | some room => !room.processed
  | none => false

/-- Sequentially apply a list of settlement invocations
`(winnerSocketId, reason)` to one room, collecting all emitted events. -/
def settleMany (f : Int → Int → Int × Int) (st : ServerState) (rid : RoomId) :
    List (Option Nat × Reason) → ServerState × List Event
  | [] => (st, [])
  | (w, r) :: rest =>
    let p := handleGameOver f st rid w r
    let q := settleMany f p.1 rid rest
    (q.1, p.2 ++ q.2)

/-! ## Helper lemmas about the settlement state machine -/

theorem findRoom_removeRoom (rooms : List (RoomId × Room)) (rid : RoomId) :
    findRoom (removeRoom rooms rid) rid = none := by
  unfold findRoom removeRoom
  rw [Option.map_eq_none', List.find?_eq_none]
  intro p hp
  rw [List.mem_filter] at hp
  simpa using hp.2

theorem handleGameOver_absent (f : Int → Int → Int × Int) (st : ServerState)
    (rid : RoomId) (w : Option Nat) (r : Reason)
    (h : findRoom st.activeRooms rid = none) :
    handleGameOver f st rid w r = (st, []) := by
  unfold handleGameOver
  rw [h]

theorem roomActiveB_iff (st : ServerState) (rid : RoomId) :
    roomActiveB st rid = true ↔
      ∃ room, findRoom st.activeRooms rid = some room ∧ room.processed = false := by
  unfold roomActiveB
  cases h : findRoom st.activeRooms rid <;> simp [h]

theorem handleGameOver_activeRooms (f : Int → Int → Int × Int) (st : ServerState)
    (rid : RoomId) (w : Option Nat) (r : Reason) (room : Room)
    (h : findRoom st.activeRooms rid = some room) (hp : room.processed = false) :
    ((handleGameOver f st rid w r).1).activeRooms = removeRoom st.activeRooms rid := by
  unfold handleGameOver
  rw [h]
  simp only [hp, Bool.false_eq_true, if_false]
  split <;> rfl

theorem handleGameOver_events_length (f : Int → Int → Int × Int) (st : ServerState)
    (rid : RoomId) (w : Option Nat) (r : Reason) (room : Room)
    (h : findRoom st.activeRooms rid = some room) (hp : room.processed = false) :
    ((handleGameOver f st rid w r).2).length = 1 := by
  unfold handleGameOver
  rw [h]
  simp only [hp, Bool.false_eq_true, if_false]
  split <;> rfl

theorem settleMany_absent (f : Int → Int → Int × Int) (st : ServerState)
    (rid : RoomId) (invs : List (Option Nat × Reason))
    (h : findRoom st.activeRooms rid = none) :
    settleMany f st rid invs = (st, []) := by
  induction invs with
  | nil => rfl
  | cons p rest ih =>
    obtain ⟨w, r⟩ := p
    simp [settleMany, handleGameOver_absent f st rid w r h, ih]

/-! ## C1 -/

/-- C1. For every active room, invoking settlement (`handleGameOver`)
any number of times, with any set of reasons and winner arguments (covering
the call shapes of all four triggers: `game_over`, `timeout_loss`,
`accept_draw`, `disconnect`), applies exactly one payout/refund sequence
and at most one rating-update pair for that room: the first invocation
emits exactly one match-result (the sole carrier of the payout/refund and
rating side effects), and every invocation after the first is a no-op
(state unchanged, nothing emitted). -/
theorem settlement_exactly_once (f : Int → Int → Int × Int) (st : ServerState)
    (rid : RoomId) (w : Option Nat) (r : Reason)
    (invs : List (Option Nat × Reason))
    (h : roomActiveB st rid = true) :
    ((handleGameOver f st rid w r).2).length = 1 ∧
    settleMany f (handleGameOver f st rid w r).1 rid invs
      = ((handleGameOver f st rid w r).1, []) := by
  obtain ⟨room, hfind, hproc⟩ := (roomActiveB_iff st rid).mp h
  refine ⟨handleGameOver_events_length f st rid w r room hfind hproc, ?_⟩
  apply settleMany_absent
  rw [handleGameOver_activeRooms f st rid w r room hfind hproc]
  exact findRoom_removeRoom _ _

/-- Concrete rating stub used by witnesses: the exactly-once guarantee is
independent of the rating function. -/
def eloStub : Int → Int → Int × Int := fun w l => (w + 16, l - 16)

/-- Concrete fixture for the C1 witness: one active, unsettled room. -/
def c1State : ServerState :=
  { openChallenges := []
    activeRooms :=
      [(RoomId.priv "R1C1",
        { p1 := { id := 10, userId := 1, elo := 1200 }
          p2 := { id := 20, userId := 2, elo := 1200 }
          stake := 100, mode := Mode.real, processed := false })]
    db := { users := [1, 2], realBal := fun _ => 0, demoBal := fun _ => 0,
            elo := fun _ => 1200, adminWallet := 0 } }

/-- Witness for C1 at a concrete input: a win settlement followed by a
draw, a timeout and an abandon signal for the same room. -/
theorem settlement_exactly_once_witness :
    roomActiveB c1State (RoomId.priv "R1C1") = true ∧
    (((handleGameOver eloStub c1State (RoomId.priv "R1C1") (some 10) Reason.regular).2).length = 1 ∧
     settleMany eloStub
        (handleGameOver eloStub c1State (RoomId.priv "R1C1") (some 10) Reason.regular).1
        (RoomId.priv "R1C1")
        [(none, Reason.draw), (some 20, Reason.timeout), (none, Reason.abandon)]
      = ((handleGameOver eloStub c1State (RoomId.priv "R1C1") (some 10) Reason.regular).1, [])) :=
  ⟨rfl, settlement_exactly_once eloStub c1State (RoomId.priv "R1C1") (some 10) Reason.regular
      [(none, Reason.draw), (some 20, Reason.timeout), (none, Reason.abandon)] rfl⟩

/-! ## Helper lemmas about the ledger operations -/

theorem modeBal_setElo (db : DB) (uid : Nat) (e : Int) (m : Mode) (u : Nat) :
    modeBal (setElo db uid e) m u = modeBal db m u := by
  cases m <;> rfl

theorem modeBal_creditMode_self (db : DB) (m : Mode) (uid : Nat) (amt : Int) :
    modeBal (creditMode db m uid amt) m uid = modeBal db m uid + amt := by
  cases m <;> simp [modeBal, creditMode]

theorem modeBal_adminDelta (db : DB) (x : Int) (m : Mode) (u : Nat) :
    modeBal { db with adminWallet := x } m u = modeBal db m u := by
  cases m <;> rfl

/-- The fee `Math.floor(totalPot * 0.10)` is the exact rational floor of one tenth
of the pot. -/
theorem platformFeeOf_eq_floor (p : Int) :
    platformFeeOf p = ⌊(p : ℚ) * (1 / 10)⌋ := by
  unfold platformFeeOf
  rw [Int.fdiv_eq_ediv _ (by norm_num), mul_one_div]
  rw [show ((10 : ℚ)) = ((10 : ℕ) : ℚ) from by norm_num]
  rw [Rat.floor_intCast_div_natCast]
  norm_num

/-! ## C2 -/

/-- C2. For every decisive (non-draw) settlement of an active room with
positive integer stake: the winner's mode balance is credited by exactly
`winnerTake = stake × 2 − fee`, the emitted result carries that payout,
`winnerTake + fee = stake × 2`, and `fee = floor(stake × 2 × 0.10)` (exact
rational floor). -/
theorem settle_decisive_amounts (f : Int → Int → Int × Int) (st : ServerState)
    (rid : RoomId) (w : Option Nat) (r : Reason) (room : Room)
    (hfind : findRoom st.activeRooms rid = some room)
    (hproc : room.processed = false)
    (hr : r ≠ Reason.draw)
    (hs : 0 < room.stake) :
    modeBal (handleGameOver f st rid w r).1.db room.mode
        (if w = some room.p1.id then room.p1 else room.p2).userId
      = modeBal st.db room.mode (if w = some room.p1.id then room.p1 else room.p2).userId
        + (room.stake * 2 - platformFeeOf (room.stake * 2)) ∧
    (handleGameOver f st rid w r).2
      = [Event.matchWin (if w = some room.p1.id then room.p1 else room.p2).userId
          (room.stake * 2 - platformFeeOf (room.stake * 2)) r] ∧
    (room.stake * 2 - platformFeeOf (room.stake * 2)) + platformFeeOf (room.stake * 2)
      = room.stake * 2 ∧
    platformFeeOf (room.stake * 2) = ⌊((room.stake * 2 : Int) : ℚ) * (1 / 10)⌋ := by
  refine ⟨?_, ?_, by omega, platformFeeOf_eq_floor _⟩
  · unfold handleGameOver
    rw [hfind]
    simp only [hproc, Bool.false_eq_true, if_false, if_neg hr]
    split
    · rw [modeBal_adminDelta, modeBal_setElo, modeBal_setElo, modeBal_creditMode_self]
    · rw [modeBal_setElo, modeBal_setElo, modeBal_creditMode_self]
  · unfold handleGameOver
    rw [hfind]
    simp only [hproc, Bool.false_eq_true, if_false, if_neg hr]

/-- Concrete fixture for the C2 witness. -/
def c2Room : Room :=
  { p1 := { id := 10, userId := 1, elo := 1200 }
    p2 := { id := 20, userId := 2, elo := 1200 }
    stake := 100, mode := Mode.real, processed := false }

/-- Concrete fixture for the C2 witness: one active real-mode room, stake 100. -/
def c2State : ServerState :=
  { openChallenges := []
    activeRooms := [(RoomId.priv "R1C2", c2Room)]
    db := { users := [1, 2], realBal := fun _ => 0, demoBal := fun _ => 0,
            elo := fun _ => 1200, adminWallet := 0 } }

/-- Witness for C2: stake 100 decisive settlement pays 180 and the fee
identities hold (the spec's §8 scenario). -/
theorem settle_decisive_amounts_witness :
    Reason.regular ≠ Reason.draw ∧ 0 < c2Room.stake ∧
    platformFeeOf (c2Room.stake * 2) = ⌊((c2Room.stake * 2 : Int) : ℚ) * (1 / 10)⌋ ∧
    (handleGameOver eloStub c2State (RoomId.priv "R1C2") (some 10) Reason.regular).2
      = [Event.matchWin 1 180 Reason.regular] := by
  obtain h := settle_decisive_amounts eloStub c2State (RoomId.priv "R1C2") (some 10)
    Reason.regular c2Room rfl rfl (by decide) (by decide)
  refine ⟨by decide, by decide, h.2.2.2, ?_⟩
  rw [h.2.1]
  rfl

theorem modeBal_creditBoth_left (db : DB) (m : Mode) (u1 u2 : Nat) (amt : Int) :
    modeBal (creditBoth db m u1 u2 amt) m u1 = modeBal db m u1 + amt := by
  cases m <;> simp [modeBal, creditBoth]

theorem modeBal_creditBoth_right (db : DB) (m : Mode) (u1 u2 : Nat) (amt : Int) :
    modeBal (creditBoth db m u1 u2 amt) m u2 = modeBal db m u2 + amt := by
  cases m <;> simp [modeBal, creditBoth]

/-! ## C3 -/

/-- Concrete fixture for the C3 counterexample: a real-mode room with
stake 5. -/
def c3Room : Room :=
  { p1 := { id := 10, userId := 1, elo := 1200 }
    p2 := { id := 20, userId := 2, elo := 1200 }
    stake := 5, mode := Mode.real, processed := false }

def c3State : ServerState :=
  { openChallenges := []
    activeRooms := [(RoomId.priv "R1C3", c3Room)]
    db := { users := [1, 2], realBal := fun _ => 0, demoBal := fun _ => 0,
            elo := fun _ => 1200, adminWallet := 0 } }

/-- C3 is false as stated: at stake 5 the pot is 10, the fee is 1 and
the refund is `floor(9/2) = 4`, so the draw settlement distributes
`2 × 4 + 1 = 9` of the 10 escrowed units — one unit is lost to rounding.
The concrete settlement confirms it: each player is credited 4 and the
platform wallet 1. -/
theorem draw_identity_fails_at_stake_five :
    (handleGameOver eloStub c3State (RoomId.priv "R1C3") none Reason.draw).1.db.realBal 1 = 4 ∧
    (handleGameOver eloStub c3State (RoomId.priv "R1C3") none Reason.draw).1.db.realBal 2 = 4 ∧
    (handleGameOver eloStub c3State (RoomId.priv "R1C3") none Reason.draw).1.db.adminWallet = 1 ∧
    ¬ (2 * drawRefundOf (5 * 2) (platformFeeOf (5 * 2)) + platformFeeOf (5 * 2) = 5 * 2) := by
  refine ⟨rfl, rfl, rfl, by decide⟩

/-- C3 (amended). For every draw settlement of an active room with
positive integer stake, with `refund = floor((2×stake − fee)/2)` and
`fee = floor(2×stake × 0.10)`: both players' mode balances are credited by
`refund`, and `2 × refund + fee = stake × 2 − (fee mod 2)` — the spec's
identity `2 × refund + fee = stake × 2` holds exactly when the fee is even;
when the fee is odd one minor unit is lost to rounding. -/
theorem settle_draw_amounts (f : Int → Int → Int × Int) (st : ServerState)
    (rid : RoomId) (room : Room)
    (hfind : findRoom st.activeRooms rid = some room)
    (hproc : room.processed = false)
    (hs : 0 < room.stake) :
    modeBal (handleGameOver f st rid none Reason.draw).1.db room.mode room.p1.userId
      = modeBal st.db room.mode room.p1.userId
        + drawRefundOf (room.stake * 2) (platformFeeOf (room.stake * 2)) ∧
    modeBal (handleGameOver f st rid none Reason.draw).1.db room.mode room.p2.userId
      = modeBal st.db room.mode room.p2.userId
        + drawRefundOf (room.stake * 2) (platformFeeOf (room.stake * 2)) ∧
    (handleGameOver f st rid none Reason.draw).2
      = [Event.matchDraw (drawRefundOf (room.stake * 2) (platformFeeOf (room.stake * 2)))] ∧
    2 * drawRefundOf (room.stake * 2) (platformFeeOf (room.stake * 2))
        + platformFeeOf (room.stake * 2)
      = room.stake * 2 - platformFeeOf (room.stake * 2) % 2 ∧
    (platformFeeOf (room.stake * 2) % 2 = 0 ↔
      2 * drawRefundOf (room.stake * 2) (platformFeeOf (room.stake * 2))
          + platformFeeOf (room.stake * 2)
        = room.stake * 2) := by
  have h10 : ∀ a : Int, Int.fdiv a 10 = a / 10 := fun a => Int.fdiv_eq_ediv a (by norm_num)
  have h2 : ∀ a : Int, Int.fdiv a 2 = a / 2 := fun a => Int.fdiv_eq_ediv a (by norm_num)
  refine ⟨?_, ?_, ?_, ?_, ?_⟩
  · unfold handleGameOver
    rw [hfind]
    simp only [hproc, Bool.false_eq_true, if_false, eq_self_iff_true, if_true]
    by_cases hm : room.mode = Mode.real
    · rw [if_pos hm, modeBal_adminDelta, modeBal_creditBoth_left]
    · rw [if_neg hm, modeBal_creditBoth_left]
  · unfold handleGameOver
    rw [hfind]
    simp only [hproc, Bool.false_eq_true, if_false, eq_self_iff_true, if_true]
    by_cases hm : room.mode = Mode.real
    · rw [if_pos hm, modeBal_adminDelta, modeBal_creditBoth_right]
    · rw [if_neg hm, modeBal_creditBoth_right]
  · unfold handleGameOver
    rw [hfind]
    simp only [hproc, Bool.false_eq_true, if_false, eq_self_iff_true, if_true]
  · simp only [drawRefundOf, platformFeeOf, h10, h2]
    omega
  · simp only [drawRefundOf, platformFeeOf, h10, h2]
    omega

/-- Witness for the amended C3 at stake 5: each player is refunded 4, the
fee is odd, and `2 × refund + fee = 10 − 1`. -/
theorem settle_draw_amounts_witness :
    0 < c3Room.stake ∧
    ((handleGameOver eloStub c3State (RoomId.priv "R1C3") none Reason.draw).2
      = [Event.matchDraw (drawRefundOf (c3Room.stake * 2) (platformFeeOf (c3Room.stake * 2)))] ∧
     2 * drawRefundOf (c3Room.stake * 2) (platformFeeOf (c3Room.stake * 2))
        + platformFeeOf (c3Room.stake * 2)
      = c3Room.stake * 2 - platformFeeOf (c3Room.stake * 2) % 2) := by
  obtain h := settle_draw_amounts eloStub c3State (RoomId.priv "R1C3") c3Room rfl rfl (by decide)
  exact ⟨by decide, h.2.2.1, h.2.2.2.1⟩

/-! ## C4 -/

/-- Concrete fixture for C4: one account (id 1) with demo balance 100. -/
def c4State : ServerState :=
  { openChallenges := []
    activeRooms := []
    db := { users := [1], realBal := fun _ => 0, demoBal := fun _ => 100,
            elo := fun _ => 1200, adminWallet := 0 } }

/-- C4 is false as stated: the `create_challenge` handler has no
`stake ≤ 0` check — the only rejection is the balance comparison
`bal < stake`.  With balance 100 and stake −5 the request is accepted: a
challenge is created, the creator's balance is *credited* 5 (debit of a
negative stake), and no error is reported. -/
theorem create_nonpositive_stake_accepted :
    ((createChallenge c4State 10 1 "alice" (-5) Mode.demo true 1200 0 "ABCDE").1.openChallenges).length = 1 ∧
    (createChallenge c4State 10 1 "alice" (-5) Mode.demo true 1200 0 "ABCDE").1.db.demoBal 1 = 105 ∧
    (createChallenge c4State 10 1 "alice" (-5) Mode.demo true 1200 0 "ABCDE").2
      = [Event.gameCreated (RoomId.priv "ABCDE") true] := by
  refine ⟨rfl, rfl, rfl⟩

/-- C4 (amended). `create_challenge` performs no stake-sign validation:
for every request with `stake ≤ 0` from an existing account whose balance
is at least `stake`, the operation is *accepted* — the challenge is appended
to the registry with that stake, the account's mode balance changes by
`−stake` (a credit when the stake is negative), and no error is reported.
(The claimed rejection happens only when the account is missing or the
balance comparison `bal < stake` fails.) -/
theorem create_ignores_nonpositive_stake (st : ServerState) (sockId uid : Nat)
    (username : String) (stake : Int) (mode : Mode) (vis : Bool) (elo : Int)
    (now : Nat) (randTok : String) (b : Int)
    (hstake : stake ≤ 0)
    (hbal : balOf st.db mode uid = some b)
    (hge : ¬ b < stake) :
    (createChallenge st sockId uid username stake mode vis elo now randTok).1.openChallenges
      = st.openChallenges ++
        [{ roomId := if vis then RoomId.priv randTok else RoomId.pub now,
           hostId := sockId, userId := uid, hostName := username,
           stake := stake, mode := mode, isPrivate := vis, elo := elo }] ∧
    modeBal (createChallenge st sockId uid username stake mode vis elo now randTok).1.db mode uid
      = modeBal st.db mode uid - stake ∧
    ((createChallenge st sockId uid username stake mode vis elo now randTok).2).head?
      = some (Event.gameCreated (if vis then RoomId.priv randTok else RoomId.pub now) vis) ∧
    (∀ msg, Event.errorMsg msg ∉ (createChallenge st sockId uid username stake mode vis elo now randTok).2) := by
  unfold createChallenge
  rw [hbal]
  simp only [if_neg hge]
  refine ⟨trivial, ?_, rfl, ?_⟩
  · rw [modeBal_creditMode_self]
    omega
  · intro msg
    cases vis <;> simp

/-- Witness for the amended C4 at stake −5 on the concrete fixture. -/
theorem create_ignores_nonpositive_stake_witness :
    ((-5 : Int) ≤ 0 ∧ balOf c4State.db Mode.demo 1 = some 100 ∧ ¬ (100 : Int) < -5) ∧
    (modeBal (createChallenge c4State 10 1 "alice" (-5) Mode.demo true 1200 0 "ABCDE").1.db Mode.demo 1
      = modeBal c4State.db Mode.demo 1 - (-5) ∧
     ∀ msg, Event.errorMsg msg ∉ (createChallenge c4State 10 1 "alice" (-5) Mode.demo true 1200 0 "ABCDE").2) := by
  obtain h := create_ignores_nonpositive_stake c4State 10 1 "alice" (-5) Mode.demo true 1200 0 "ABCDE"
    100 (by decide) rfl (by decide)
  exact ⟨⟨by decide, rfl, by decide⟩, h.2.1, h.2.2.2⟩

/-! ## C5 -/

/-- C5. For every `join_challenge` request whose joining account equals
the challenge creator's account, the handler returns the unchanged state
together with the SelfJoin error — the challenge stays in the registry,
no active room is created, and neither party's balance is debited. -/
theorem join_selfJoin_rejected (st : ServerState) (sockId uid : Nat)
    (username : String) (rid : RoomId) (elo : Int) (c : Challenge)
    (hfind : st.openChallenges.find? (fun x => decide (x.roomId = rid)) = some c)
    (hself : c.userId = uid) :
    joinChallenge st sockId uid username rid elo
      = (st, [Event.errorMsg "Huwezi kucheza dhidi yako!"]) := by
  unfold joinChallenge
  rw [hfind]
  simp [hself]

/-- Concrete fixture for the C5 witness: one open challenge by account 1. -/
def c5Challenge : Challenge :=
  { roomId := RoomId.priv "C5ROOM", hostId := 10, userId := 1, hostName := "alice",
    stake := 50, mode := Mode.demo, isPrivate := false, elo := 1200 }

def c5State : ServerState :=
  { openChallenges := [c5Challenge]
    activeRooms := []
    db := { users := [1], realBal := fun _ => 0, demoBal := fun _ => 100,
            elo := fun _ => 1200, adminWallet := 0 } }

/-- Witness for C5: account 1 attempting to join its own challenge. -/
theorem join_selfJoin_rejected_witness :
    (c5State.openChallenges.find? (fun x => decide (x.roomId = RoomId.priv "C5ROOM"))
        = some c5Challenge ∧ c5Challenge.userId = 1) ∧
    joinChallenge c5State 30 1 "alice" (RoomId.priv "C5ROOM") 1300
      = (c5State, [Event.errorMsg "Huwezi kucheza dhidi yako!"]) :=
  ⟨⟨rfl, rfl⟩,
   join_selfJoin_rejected c5State 30 1 "alice" (RoomId.priv "C5ROOM") 1300 c5Challenge rfl rfl⟩

/-! ## C6 -/

/-- Value of `expectedScore` at equal ratings is exactly one half. -/
theorem expectedScore_self (a : Int) : expectedScore a a = 1 / 2 := by
  unfold expectedScore
  have h0 : (((a - a : Int) : ℝ) / 400) = 0 := by
    push_cast
    ring
  rw [h0, Real.rpow_zero]
  norm_num

/-- C6. The rating update function is the pure logistic Elo update with
`K = 32`: it coincides with the spec's Rating Calculator formula, and at
ratings 1200 vs 1200 a decisive match yields winner 1216 and loser 1184. -/
theorem updateElo_is_logistic :
    (∀ w l : Int, updateElo w l = ratingCalculatorSpec w l) ∧
    updateElo 1200 1200 = (1216, 1184) := by
  constructor
  · intro w l
    rfl
  · show (round ((1200 : Int) + 32 * (1 - expectedScore 1200 1200) : ℝ),
          round (((1200 : Int) : ℝ) + 32 * (0 - expectedScore 1200 1200))) = (1216, 1184)
    rw [expectedScore_self]
    have h1 : (((1200 : Int) : ℝ) + 32 * (1 - 1 / 2)) = ((1216 : Int) : ℝ) := by
      push_cast
      ring
    have h2 : (((1200 : Int) : ℝ) + 32 * (0 - 1 / 2)) = ((1184 : Int) : ℝ) := by
      push_cast
      ring
    rw [h1, h2, round_intCast, round_intCast]

/-! ## C7 -/

theorem find?_of_filter_singleton {α : Type} (p : α → Bool) (l : List α) (c : α)
    (h : l.filter p = [c]) : l.find? p = some c := by
  induction l with
  | nil => simp at h
  | cons a t ih =>
    by_cases hp : p a
    · rw [List.filter_cons_of_pos hp] at h
      rw [List.find?_cons_of_pos _ hp]
      exact congrArg some (List.cons.inj h).1
    · rw [List.filter_cons_of_neg hp] at h
      rw [List.find?_cons_of_neg _ hp]
      exact ih h

theorem filter_eraseP {α : Type} (p : α → Bool) (l : List α) :
    (l.eraseP p).filter p = (l.filter p).tail := by
  induction l with
  | nil => rfl
  | cons a t ih =>
    by_cases hp : p a
    · rw [List.eraseP_cons_of_pos hp, List.filter_cons_of_pos hp]
      rfl
    · rw [List.eraseP_cons_of_neg hp, List.filter_cons_of_neg hp,
        List.filter_cons_of_neg hp]
      exact ih

/-- Evaluation of `onDisconnect` for a socket that owns a challenge and is not in any
active room: refund, removal, lobby broadcast. -/
theorem onDisconnect_eq (f : Int → Int → Int × Int) (st : ServerState)
    (sock : Socket) (c : Challenge)
    (hfind : st.openChallenges.find? (fun x => decide (x.hostId = sock.id)) = some c)
    (hroom : ∀ rid, sock.roomId = some rid → findRoom st.activeRooms rid = none) :
    onDisconnect f st sock =
      ({ st with
          db := creditMode st.db c.mode c.userId c.stake
          openChallenges := st.openChallenges.eraseP (fun x => decide (x.hostId = sock.id)) },
       [Event.lobbyUpdate (publicList
          (st.openChallenges.eraseP (fun x => decide (x.hostId = sock.id))))]) := by
  unfold onDisconnect
  rw [hfind]
  cases hr : sock.roomId with
  | none => rfl
  | some rid =>
    dsimp only
    rw [hroom rid hr]

/-- Evaluation of `onDisconnect` for a socket with no challenge and no active room is a
no-op. -/
theorem onDisconnect_noop (f : Int → Int → Int × Int) (st : ServerState)
    (sock : Socket)
    (hfind : st.openChallenges.find? (fun x => decide (x.hostId = sock.id)) = none)
    (hroom : ∀ rid, sock.roomId = some rid → findRoom st.activeRooms rid = none) :
    onDisconnect f st sock = (st, []) := by
  unfold onDisconnect
  rw [hfind]
  cases hr : sock.roomId with
  | none => rfl
  | some rid =>
    dsimp only
    rw [hroom rid hr]

/-- C7. For every session that disconnects while holding an open
(unjoined) challenge (and not sitting in an active room), the creator's
staked amount is credited back to the creator's mode balance, the challenge
is removed from the registry and hence from every lobby listing, and the
refund happens exactly once: a repeated disconnect of the same session is a
complete no-op. -/
theorem disconnect_refunds_open_challenge (f : Int → Int → Int × Int)
    (st : ServerState) (sock : Socket) (c : Challenge)
    (hc : st.openChallenges.filter (fun x => decide (x.hostId = sock.id)) = [c])
    (hroom : ∀ rid, sock.roomId = some rid → findRoom st.activeRooms rid = none) :
    modeBal (onDisconnect f st sock).1.db c.mode c.userId
      = modeBal st.db c.mode c.userId + c.stake ∧
    (∀ x ∈ (onDisconnect f st sock).1.openChallenges, x.hostId ≠ sock.id) ∧
    (∀ x ∈ publicList (onDisconnect f st sock).1.openChallenges, x.hostId ≠ sock.id) ∧
    onDisconnect f (onDisconnect f st sock).1 sock = ((onDisconnect f st sock).1, []) := by
  have hfind := find?_of_filter_singleton _ _ _ hc
  have heq := onDisconnect_eq f st sock c hfind hroom
  have herase : ∀ x ∈ st.openChallenges.eraseP (fun x => decide (x.hostId = sock.id)),
      x.hostId ≠ sock.id := by
    have h2 := filter_eraseP (fun x => decide (x.hostId = sock.id)) st.openChallenges
    rw [hc] at h2
    intro x hx
    have := List.filter_eq_nil_iff.mp h2 x hx
    simpa using this
  rw [heq]
  refine ⟨modeBal_creditMode_self st.db c.mode c.userId c.stake, herase, ?_, ?_⟩
  · intro x hx
    exact herase x (List.mem_filter.mp hx).1
  · apply onDisconnect_noop
    · apply List.find?_eq_none.mpr
      intro x hx
      simpa using herase x hx
    · intro rid hr
      exact hroom rid hr

/-- Concrete fixture for the C7 witness: socket 11 owns the only open
challenge (stake 40, real mode) and sits in no active room. -/
def c7Challenge : Challenge :=
  { roomId := RoomId.pub 1700, hostId := 11, userId := 3, hostName := "bob",
    stake := 40, mode := Mode.real, isPrivate := false, elo := 1200 }

def c7State : ServerState :=
  { openChallenges := [c7Challenge]
    activeRooms := []
    db := { users := [3], realBal := fun _ => 10, demoBal := fun _ => 0,
            elo := fun _ => 1200, adminWallet := 0 } }

def c7Sock : Socket := { id := 11, roomId := some (RoomId.pub 1700) }

/-- Witness for C7 on the concrete fixture. -/
theorem disconnect_refunds_open_challenge_witness :
    c7State.openChallenges.filter (fun x => decide (x.hostId = c7Sock.id)) = [c7Challenge] ∧
    (modeBal (onDisconnect eloStub c7State c7Sock).1.db c7Challenge.mode c7Challenge.userId
        = modeBal c7State.db c7Challenge.mode c7Challenge.userId + c7Challenge.stake ∧
     onDisconnect eloStub (onDisconnect eloStub c7State c7Sock).1 c7Sock
        = ((onDisconnect eloStub c7State c7Sock).1, [])) := by
  obtain h := disconnect_refunds_open_challenge eloStub c7State c7Sock c7Challenge rfl
    (fun rid hr => rfl)
  exact ⟨rfl, h.1, h.2.2.2⟩

/-! ## C8 -/

theorem handleGameOver_processed (f : Int → Int → Int × Int) (st : ServerState)
    (rid : RoomId) (w : Option Nat) (r : Reason) (room : Room)
    (h : findRoom st.activeRooms rid = some room) (hp : room.processed = true) :
    handleGameOver f st rid w r = (st, []) := by
  unfold handleGameOver
  rw [h]
  simp [hp]

theorem handleGameOver_decisive_events (f : Int → Int → Int × Int)
    (st : ServerState) (rid : RoomId) (w : Option Nat) (r : Reason) (room : Room)
    (h : findRoom st.activeRooms rid = some room) (hp : room.processed = false)
    (hr : r ≠ Reason.draw) :
    (handleGameOver f st rid w r).2
      = [Event.matchWin (if w = some room.p1.id then room.p1 else room.p2).userId
          (room.stake * 2 - platformFeeOf (room.stake * 2)) r] := by
  unfold handleGameOver
  rw [h]
  simp only [hp, Bool.false_eq_true, if_false, if_neg hr]

/-- The settlement reason influences only the emitted event, never the
resulting state, for any two non-draw reasons. -/
theorem handleGameOver_state_reason_irrel (f : Int → Int → Int × Int)
    (st : ServerState) (rid : RoomId) (w : Option Nat) {r1 r2 : Reason}
    (hr1 : r1 ≠ Reason.draw) (hr2 : r2 ≠ Reason.draw) :
    (handleGameOver f st rid w r1).1 = (handleGameOver f st rid w r2).1 := by
  cases h : findRoom st.activeRooms rid with
  | none =>
    rw [handleGameOver_absent f st rid w r1 h, handleGameOver_absent f st rid w r2 h]
  | some room =>
    cases hp : room.processed with
    | true =>
      rw [handleGameOver_processed f st rid w r1 room h hp,
        handleGameOver_processed f st rid w r2 room h hp]
    | false =>
      unfold handleGameOver
      rw [h]
      simp only [hp, Bool.false_eq_true, if_false, if_neg hr1, if_neg hr2]

/-- Evaluation of `onDisconnect` for a room participant who holds no open challenge is
exactly one `abandon` settlement against the opponent. -/
theorem onDisconnect_room_eq (f : Int → Int → Int × Int) (st : ServerState)
    (sock : Socket) (rid : RoomId) (room : Room)
    (h3 : st.openChallenges.find? (fun c => decide (c.hostId = sock.id)) = none)
    (h0 : sock.roomId = some rid)
    (h1 : findRoom st.activeRooms rid = some room)
    (h2 : room.processed = false) :
    onDisconnect f st sock
      = handleGameOver f st rid
          (some (if room.p1.id = sock.id then room.p2.id else room.p1.id))
          Reason.abandon := by
  unfold onDisconnect
  rw [h3, h0]
  dsimp only
  rw [h1]
  simp only [h2, Bool.false_eq_true, if_false, List.nil_append]

/-- Evaluation of `onTimeoutLoss` for a room participant is one `timeout` settlement
against the opponent. -/
theorem onTimeoutLoss_eq (f : Int → Int → Int × Int) (st : ServerState)
    (sock : Socket) (rid : RoomId) (room : Room)
    (h0 : sock.roomId = some rid)
    (h1 : findRoom st.activeRooms rid = some room) :
    onTimeoutLoss f st sock
      = some (handleGameOver f st rid
          (some (if room.p1.id = sock.id then room.p2.id else room.p1.id))
          Reason.timeout) := by
  unfold onTimeoutLoss
  rw [h0]
  dsimp only
  rw [h1]

/-- C8. For every participant disconnecting from a room whose status is
still open (and who holds no open challenge), settlement is invoked exactly
once with the opposing player as winner and reason `abandon` — never a
draw; the resulting state (payout and rating changes included) is identical
to a `timeout_loss` reported by the same player, which differs only in the
reason carried by the emitted event.  The room is removed, so no further
settlement of it is possible. -/
theorem disconnect_abandon_matches_timeout (f : Int → Int → Int × Int)
    (st : ServerState) (sock : Socket) (rid : RoomId) (room : Room)
    (h0 : sock.roomId = some rid)
    (h1 : findRoom st.activeRooms rid = some room)
    (h2 : room.processed = false)
    (h3 : st.openChallenges.find? (fun c => decide (c.hostId = sock.id)) = none)
    (h4 : sock.id = room.p1.id ∨ sock.id = room.p2.id)
    (h5 : room.p1.id ≠ room.p2.id) :
    onTimeoutLoss f st sock
      = some ((onDisconnect f st sock).1,
          [Event.matchWin (if sock.id = room.p1.id then room.p2 else room.p1).userId
            (room.stake * 2 - platformFeeOf (room.stake * 2)) Reason.timeout]) ∧
    (onDisconnect f st sock).2
      = [Event.matchWin (if sock.id = room.p1.id then room.p2 else room.p1).userId
          (room.stake * 2 - platformFeeOf (room.stake * 2)) Reason.abandon] ∧
    findRoom (onDisconnect f st sock).1.activeRooms rid = none := by
  have hwin :
      (if (some (if room.p1.id = sock.id then room.p2.id else room.p1.id) : Option Nat)
          = some room.p1.id then room.p1 else room.p2)
        = (if sock.id = room.p1.id then room.p2 else room.p1) := by
    rcases h4 with h | h
    · rw [if_pos h.symm, if_pos h,
        if_neg (fun hh : (some room.p2.id : Option Nat) = some room.p1.id =>
          h5 (Option.some.inj hh).symm)]
    · have hne : sock.id ≠ room.p1.id := fun hh => h5 (by rw [← hh, h])
      rw [if_neg (fun hh : room.p1.id = sock.id => hne hh.symm), if_neg hne,
        if_pos rfl]
  have hD := onDisconnect_room_eq f st sock rid room h3 h0 h1 h2
  have hT := onTimeoutLoss_eq f st sock rid room h0 h1
  have hevA := handleGameOver_decisive_events f st rid
    (some (if room.p1.id = sock.id then room.p2.id else room.p1.id))
    Reason.abandon room h1 h2 (by decide)
  have hevT := handleGameOver_decisive_events f st rid
    (some (if room.p1.id = sock.id then room.p2.id else room.p1.id))
    Reason.timeout room h1 h2 (by decide)
  rw [hwin] at hevA hevT
  refine ⟨?_, ?_, ?_⟩
  · rw [hT, hD]
    exact congrArg some (Prod.ext
      (handleGameOver_state_reason_irrel f st rid _ (by decide) (by decide)) hevT)
  · rw [hD]
    exact hevA
  · rw [hD]
    rw [handleGameOver_activeRooms f st rid _ Reason.abandon room h1 h2]
    exact findRoom_removeRoom _ _

/-- Concrete fixture for the C8 witness: p2 (socket 20) disconnects from an
open stake-100 room. -/
def c8Room : Room :=
  { p1 := { id := 10, userId := 1, elo := 1200 }
    p2 := { id := 20, userId := 2, elo := 1200 }
    stake := 100, mode := Mode.real, processed := false }

def c8State : ServerState :=
  { openChallenges := []
    activeRooms := [(RoomId.priv "R1C8", c8Room)]
    db := { users := [1, 2], realBal := fun _ => 0, demoBal := fun _ => 0,
            elo := fun _ => 1200, adminWallet := 0 } }

def c8Sock : Socket := { id := 20, roomId := some (RoomId.priv "R1C8") }

/-- Witness for C8: the disconnecting p2 loses, p1 (user 1) is paid 180,
and the same state is reached as under `timeout_loss`. -/
theorem disconnect_abandon_matches_timeout_witness :
    (c8Sock.roomId = some (RoomId.priv "R1C8") ∧
     findRoom c8State.activeRooms (RoomId.priv "R1C8") = some c8Room ∧
     c8Room.processed = false ∧ c8Room.p1.id ≠ c8Room.p2.id) ∧
    (onTimeoutLoss eloStub c8State c8Sock
      = some ((onDisconnect eloStub c8State c8Sock).1,
          [Event.matchWin (if c8Sock.id = c8Room.p1.id then c8Room.p2 else c8Room.p1).userId
            (c8Room.stake * 2 - platformFeeOf (c8Room.stake * 2)) Reason.timeout]) ∧
     (onDisconnect eloStub c8State c8Sock).2
      = [Event.matchWin (if c8Sock.id = c8Room.p1.id then c8Room.p2 else c8Room.p1).userId
          (c8Room.stake * 2 - platformFeeOf (c8Room.stake * 2)) Reason.abandon]) := by
  obtain h := disconnect_abandon_matches_timeout eloStub c8State c8Sock (RoomId.priv "R1C8")
    c8Room rfl rfl rfl rfl (Or.inr rfl) (by decide)
  exact ⟨⟨rfl, rfl, rfl, by decide⟩, h.1, h.2.1⟩

/-! ## C9 -/

/-- Concrete fixture for the C9 counterexample: two accounts able to stake. -/
def c9State : ServerState :=
  { openChallenges := []
    activeRooms := []
    db := { users := [1, 2], realBal := fun _ => 0, demoBal := fun _ => 100,
            elo := fun _ => 1200, adminWallet := 0 } }

/-- C9 is false as stated: the public identifier is
`"pub_" + Date.now()`, a pure function of the millisecond timestamp.  Two
public creates executing at the same millisecond (here both with
`Date.now() = 1700`) produce the *same* room identifier — the generated
identifiers are not distinct. -/
theorem public_roomId_same_millisecond_collision :
    ((createChallenge
        (createChallenge c9State 10 1 "alice" 5 Mode.demo false 1200 1700 "").1
        20 2 "bob" 5 Mode.demo false 1200 1700 "").1.openChallenges.map
          (fun c => c.roomId)
      = [RoomId.pub 1700, RoomId.pub 1700]) ∧
    ¬ ((createChallenge
        (createChallenge c9State 10 1 "alice" 5 Mode.demo false 1200 1700 "").1
        20 2 "bob" 5 Mode.demo false 1200 1700 "").1.openChallenges.map
          (fun c => c.roomId)).Nodup := by
  refine ⟨rfl, by decide⟩

/-- C9 (amended). The public room identifier is determined solely by
the creation timestamp: every accepted public `create_challenge` at
millisecond `now` announces and registers the identifier `pub now`, and two
public identifiers are distinct if and only if their timestamps are
distinct — same-millisecond creations collide. -/
theorem public_roomId_timestamp_determined (st : ServerState) (sockId uid : Nat)
    (username : String) (stake : Int) (mode : Mode) (elo : Int)
    (now : Nat) (tok : String) (b : Int)
    (hbal : balOf st.db mode uid = some b)
    (hge : ¬ b < stake) :
    ((createChallenge st sockId uid username stake mode false elo now tok).2).head?
      = some (Event.gameCreated (RoomId.pub now) false) ∧
    (∃ ch, (createChallenge st sockId uid username stake mode false elo now tok).1.openChallenges.getLast?
        = some ch ∧ ch.roomId = RoomId.pub now) ∧
    (∀ t1 t2 : Nat, RoomId.pub t1 = RoomId.pub t2 ↔ t1 = t2) := by
  unfold createChallenge
  rw [hbal]
  simp only [if_neg hge, Bool.false_eq_true, if_false]
  refine ⟨rfl, ⟨_, List.getLast?_concat _, rfl⟩, ?_⟩
  intro t1 t2
  simp

/-- Witness for the amended C9 on the concrete fixture. -/
theorem public_roomId_timestamp_determined_witness :
    (balOf c9State.db Mode.demo 1 = some 100 ∧ ¬ (100 : Int) < 5) ∧
    (((createChallenge c9State 10 1 "alice" 5 Mode.demo false 1200 1700 "").2).head?
      = some (Event.gameCreated (RoomId.pub 1700) false) ∧
     (∀ t1 t2 : Nat, RoomId.pub t1 = RoomId.pub t2 ↔ t1 = t2)) := by
  obtain h := public_roomId_timestamp_determined c9State 10 1 "alice" 5 Mode.demo 1200
    1700 "" 100 rfl (by decide)
  exact ⟨⟨rfl, by decide⟩, h.1, h.2.2⟩

/-! ## C10 -/

/-- Concrete fixture for C10: an active stake-100 real-mode room,
p1 = socket 10 / account 1, p2 = socket 20 / account 2. -/
def c10Room : Room :=
  { p1 := { id := 10, userId := 1, elo := 1200 }
    p2 := { id := 20, userId := 2, elo := 1200 }
    stake := 100, mode := Mode.real, processed := false }

def c10State : ServerState :=
  { openChallenges := []
    activeRooms := [(RoomId.priv "RC10", c10Room)]
    db := { users := [1, 2], realBal := fun _ => 0, demoBal := fun _ => 0,
            elo := fun _ => 1200, adminWallet := 0 } }

def c10Sock : Socket := { id := 20, roomId := some (RoomId.priv "RC10") }

/-- C10 is violated by the code.  The `game_over` handler maps
`winner: "opponent"` to `winnerSocketId = null`, and `null` never equals
`room.p1.id`, so `handleGameOver` always selects **p2** as winner.  When
the p2 socket (20, account 2) itself sends `game_over{winner:"opponent"}` —
declaring its *opponent* the winner — the settlement still records account
2, the sender, as winner: it receives the 180 payout and the winner rating
slot, instead of p1 (account 1) as the claim requires.  (The rating
function is universally quantified: the selection does not depend on it.) -/
theorem gameOver_opponent_pays_sender (f : Int → Int → Int × Int) :
    (onGameOver f c10State c10Sock GOWinner.opponent).2
      = [Event.matchWin 2 180 Reason.regular] ∧
    modeBal (onGameOver f c10State c10Sock GOWinner.opponent).1.db Mode.real 2 = 180 ∧
    (onGameOver f c10State c10Sock GOWinner.opponent).2
      ≠ [Event.matchWin 1 180 Reason.regular] := by
  have h1 : (onGameOver f c10State c10Sock GOWinner.opponent).2
      = [Event.matchWin 2 180 Reason.regular] := rfl
  refine ⟨h1, rfl, ?_⟩
  rw [h1]
  decide

end Dama
